import Mathlib

/-!
Verification of the player-control core of a top-down action game
(src/player.rs of the repository).  The per-frame systems — movement with
AABB collision resolution, aim, cooldown-gated hitscan shooting, damage
handling and UI sync — are shallowly embedded below.  Geometric values
(positions, sizes, directions) are modelled over the reals, since the
source normalizes vectors; scalar bookkeeping (timers, health, volumes)
is modelled over the rationals so that concrete instances evaluate by
computation.  f32 arithmetic is idealized as exact arithmetic.
-/

namespace Game

/-- Modelled from the spec: the crate-root constant TILE_SIZE (the tile
unit) is not under src/; the spec fixes the tile unit to 32
(scenario: speed=10, tile_unit=32). -/
def TILE_SIZE : ℝ := 32

/-- WEAPON_RANGE constant from src/player.rs. -/
def WEAPON_RANGE : ℝ := 400

/-- WEAPON_COOLDOWN constant from src/player.rs (seconds). -/
def WEAPON_COOLDOWN : ℚ := 1/2

/-- The four directional key states read by player_movement
(W = up, S = down, D = right, A = left). -/
structure Keys where
  w : Bool
  s : Bool
  d : Bool
  a : Bool
deriving DecidableEq

/-- Direction vector accumulated by player_movement from the held keys:
y += 1 for W, y -= 1 for S, x += 1 for D, x -= 1 for A. -/
def keyDirection (k : Keys) : ℝ × ℝ :=
  ((if k.d then (1:ℝ) else 0) - (if k.a then (1:ℝ) else 0),
   (if k.w then (1:ℝ) else 0) - (if k.s then (1:ℝ) else 0))

/-- Euclidean length of a 2D vector (glam Vec2 and Vec3 length; the z
component of the direction vector in the source is always 0). -/
noncomputable def len (v : ℝ × ℝ) : ℝ :=
  Real.sqrt (v.1 * v.1 + v.2 * v.2)

/-- glam normalize: the vector scaled by the reciprocal of its length.
Division by a zero length is idealized as the total real division
(yielding the zero vector where f32 yields NaN). -/
noncomputable def normalize (v : ℝ × ℝ) : ℝ × ℝ :=
  (v.1 / len v, v.2 / len v)

/-- Collision sides of bevy_sprite collide_aabb. -/
inductive Collision where
  | Left
  | Right
  | Top
  | Bottom
  | Inside
deriving DecidableEq

/-- The x-side classification of bevy collide: Left or Right together
with the penetration depth, none when neither strict straddle holds
(the source marks this case with a -infinity depth sentinel; the
sentinel only ever makes the comparison pick the other axis, which the
Option form reproduces). -/
noncomputable def xCollision (aMin aMax bMin bMax : ℝ) : Option (Collision × ℝ) :=
  if aMin < bMin ∧ aMax > bMin ∧ aMax < bMax then some (Collision.Left, bMin - aMax)
  else if aMin > bMin ∧ aMin < bMax ∧ aMax > bMax then some (Collision.Right, aMin - bMax)
  else none

/-- The y-side classification of bevy collide: Bottom or Top with the
penetration depth. -/
noncomputable def yCollision (aMin aMax bMin bMax : ℝ) : Option (Collision × ℝ) :=
  if aMin < bMin ∧ aMax > bMin ∧ aMax < bMax then some (Collision.Bottom, bMin - aMax)
  else if aMin > bMin ∧ aMin < bMax ∧ aMax > bMax then some (Collision.Top, aMin - bMax)
  else none

/-- Primary-side pick of bevy collide: with both an x and a y side, the
smaller absolute penetration depth wins (ties go to x); with one side,
that side; with neither, the overlap is classified Inside. -/
noncomputable def pickCollision :
    Option (Collision × ℝ) → Option (Collision × ℝ) → Collision
  | some (xc, xd), some (yc, yd) => if |yd| < |xd| then yc else xc
  | some (xc, _), none => xc
  | none, some (yc, _) => yc
  | none, none => Collision.Inside

/-- bevy_sprite collide_aabb::collide for boxes centered at aPos and bPos
with full sizes aSize and bSize: None when the open boxes do not
intersect, otherwise the classified side. -/
noncomputable def collide (aPos aSize bPos bSize : ℝ × ℝ) : Option Collision :=
  let aMin : ℝ × ℝ := (aPos.1 - aSize.1 / 2, aPos.2 - aSize.2 / 2)
  let aMax : ℝ × ℝ := (aPos.1 + aSize.1 / 2, aPos.2 + aSize.2 / 2)
  let bMin : ℝ × ℝ := (bPos.1 - bSize.1 / 2, bPos.2 - bSize.2 / 2)
  let bMax : ℝ × ℝ := (bPos.1 + bSize.1 / 2, bPos.2 + bSize.2 / 2)
  if aMin.1 < bMax.1 ∧ aMax.1 > bMin.1 ∧ aMin.2 < bMax.2 ∧ aMax.2 > bMin.2 then
    some (pickCollision
      (xCollision aMin.1 aMax.1 bMin.1 bMax.1)
      (yCollision aMin.2 aMax.2 bMin.2 bMax.2))
  else
    none

/-- The position the collision loop snaps the tentative target to for a
given side, exactly the match arms of player_movement: one tile unit
from the wall center on the penetrated side; Inside applies no
correction. -/
def snapTarget (t w : ℝ × ℝ) : Collision → ℝ × ℝ
  | Collision.Bottom => (t.1, w.2 - TILE_SIZE)
  | Collision.Top => (t.1, w.2 + TILE_SIZE)
  | Collision.Left => (w.1 - TILE_SIZE, t.2)
  | Collision.Right => (w.1 + TILE_SIZE, t.2)
  | Collision.Inside => t

/-- One iteration of the wall loop of player_movement: collide the
tentative target footprint against one wall tile and apply the snap for
the classified side (no change when there is no overlap). -/
noncomputable def resolveWall (size t w : ℝ × ℝ) : ℝ × ℝ :=
  match collide t size w (TILE_SIZE, TILE_SIZE) with
  | some c => snapTarget t w c
  | none => t

/-- Player footprint size computed by player_movement from the sprite
custom_size and the transform scale. -/
def playerSize (customSize : Option (ℝ × ℝ)) (scale : ℝ × ℝ) : ℝ × ℝ :=
  match customSize with
  | some s => (s.1 * scale.1, s.2 * scale.2)
  | none => (scale.1, scale.2)

/-- One tick of player_movement: accumulate the key direction; if its
length is nonzero, move the position by normalize(direction) * speed *
TILE_SIZE * dt and run the collision loop over all wall tiles on the
tentative target; otherwise leave the position unchanged. -/
noncomputable def playerMovement (k : Keys) (speed dt : ℝ) (pos : ℝ × ℝ)
    (customSize : Option (ℝ × ℝ)) (scale : ℝ × ℝ) (walls : List (ℝ × ℝ)) : ℝ × ℝ :=
  let dir := keyDirection k
  if len dir ≠ 0 then
    let n := normalize dir
    let target : ℝ × ℝ :=
      (pos.1 + n.1 * speed * TILE_SIZE * dt, pos.2 + n.2 * speed * TILE_SIZE * dt)
    walls.foldl (fun t w => resolveWall (playerSize customSize scale) t w) target
  else
    pos

/-- Overlap of the player footprint (center a, full size s) with a wall
tile (center w) on the x axis, as tested by collide. -/
def overlapX (a s w : ℝ × ℝ) : Prop :=
  a.1 - s.1 / 2 < w.1 + TILE_SIZE / 2 ∧ a.1 + s.1 / 2 > w.1 - TILE_SIZE / 2

/-- Overlap of the player footprint with a wall tile on the y axis, as
tested by collide. -/
def overlapY (a s w : ℝ × ℝ) : Prop :=
  a.2 - s.2 / 2 < w.2 + TILE_SIZE / 2 ∧ a.2 + s.2 / 2 > w.2 - TILE_SIZE / 2

/-- Overlap on the axis corrected for a given collision side (x axis for
Left/Right, y axis for Top/Bottom; no axis is corrected for Inside). -/
def correctedOverlap : Collision → (ℝ × ℝ) → (ℝ × ℝ) → (ℝ × ℝ) → Prop
  | Collision.Left, a, s, w => overlapX a s w
  | Collision.Right, a, s, w => overlapX a s w
  | Collision.Top, a, s, w => overlapY a s w
  | Collision.Bottom, a, s, w => overlapY a s w
  | Collision.Inside, _, _, _ => False

/-- bevy Timer state as used by Shooting: a fixed duration and the
elapsed time, both in seconds; the timer in the source is created
non-repeating. -/
structure Timer where
  duration : ℚ
  elapsed : ℚ
deriving DecidableEq

/-- bevy Timer::tick for a non-repeating timer: an already-finished
timer is left unchanged, otherwise elapsed advances by the frame delta,
clamped at the duration. -/
def Timer.tick (t : Timer) (dt : ℚ) : Timer :=
  if t.duration ≤ t.elapsed then t
  else { t with elapsed := min (t.elapsed + dt) t.duration }

/-- bevy Timer::finished for a non-repeating timer: elapsed has reached
the duration. -/
def Timer.finished (t : Timer) : Bool :=
  decide (t.duration ≤ t.elapsed)

/-- bevy Timer::reset: elapsed returns to 0. -/
def Timer.reset (t : Timer) : Timer :=
  { t with elapsed := 0 }

/-- Pointer offset from the window center as computed by player_aim
(no scale factor is applied there): cursor - window_size / 2. -/
noncomputable def aimVec (c win : ℝ × ℝ) : ℝ × ℝ :=
  (c.1 - win.1 / 2, c.2 - win.2 / 2)

/-- Scaled pointer offset from the window center as computed by
player_shoot: cursor * scale_factor - window_size / 2. -/
noncomputable def shootVec (c : ℝ × ℝ) (sf : ℝ) (win : ℝ × ℝ) : ℝ × ℝ :=
  (c.1 * sf - win.1 / 2, c.2 * sf - win.2 / 2)

/-- The aim step of player_aim: when the cursor is present, the entity
rotation is set to Quat.from_rotation_z of the signed angle between
Vec2::Y and this returned offset vector; when the cursor is absent the
step is a no-op (none). -/
noncomputable def playerAim (cursor : Option (ℝ × ℝ)) (win : ℝ × ℝ) : Option (ℝ × ℝ) :=
  cursor.map (fun c => aimVec c win)

/-- A ray query as issued to rapier cast_ray by player_shoot. -/
structure Ray where
  origin : ℝ × ℝ
  dir : ℝ × ℝ
  maxToi : ℝ
  solid : Bool
  excluded : ℕ

/-- The ray player_shoot builds: origin at the player translation,
direction the normalized scaled pointer offset, range WEAPON_RANGE,
solid hits, the player collider excluded. -/
noncomputable def shootRay (pid : ℕ) (pos : ℝ × ℝ) (sf : ℝ) (c win : ℝ × ℝ) : Ray :=
  { origin := pos
    dir := normalize (shootVec c sf win)
    maxToi := WEAPON_RANGE
    solid := true
    excluded := pid }

/-- Observable effects of one player_shoot tick: despawn-recursive
requests (entity ids), sound-play requests (volumes), the updated
cooldown timer, and the ray queries performed. -/
structure ShootOut where
  despawned : List ℕ
  sounds : List ℚ
  shooting : Timer
  rays : List Ray

/-- One tick of player_shoot: tick the cooldown and return early while
it is unfinished; otherwise, with the cursor present, build the ray
from the scaled pointer offset, and on a fresh fire-button press cast
it, despawn the hit entity once for every enemy sharing its id, play
the shot sound at volume 0.15 and reset the cooldown.  The external
rapier scene query is the castRay parameter. -/
noncomputable def playerShoot (pid : ℕ) (pos : ℝ × ℝ) (shooting : Timer) (dt : ℚ)
    (cursor : Option (ℝ × ℝ)) (sf : ℝ) (win : ℝ × ℝ) (justPressed : Bool)
    (enemies : List ℕ) (castRay : Ray → Option (ℕ × ℝ)) : ShootOut :=
  let t1 := shooting.tick dt
  if t1.finished = false then
    { despawned := [], sounds := [], shooting := t1, rays := [] }
  else
    match cursor with
    | none => { despawned := [], sounds := [], shooting := t1, rays := [] }
    | some c =>
      if justPressed then
        let ray := shootRay pid pos sf c win
        let despawned :=
          match castRay ray with
          | some (e, _) => (enemies.filter (fun enemy => e == enemy)).map (fun _ => e)
          | none => []
        { despawned := despawned, sounds := [3/20], shooting := t1.reset, rays := [ray] }
      else
        { despawned := [], sounds := [], shooting := t1, rays := [] }

/-- Modelled from the spec: the Health component lives in src/unit.rs,
which is absent from src/; the spec gives current in [0, max] with
max > 0, both floats. -/
structure Health where
  current : ℚ
  max : ℚ
deriving DecidableEq

/-- Modelled from the spec: Health::take_damage (src/unit.rs, absent
from src/) subtracts the amount from current, clamps to [0, max], and
reports whether current is now 0 (death). -/
def Health.takeDamage (h : Health) (amount : ℚ) : Health × Bool :=
  let c := min h.max (Max.max 0 (h.current - amount))
  ({ current := c, max := h.max }, decide (c = 0))

/-- Modelled from the spec: the global game states referenced by
src/player.rs; the GameState enum lives in the crate root, absent from
src/. -/
inductive GameState where
  | Game
  | GameOver
  | Settings
deriving DecidableEq

/-- Observable effects of one damage_yourself tick: the updated health,
the requested game-state transitions, and whether a rejected transition
request aborted the process (the source unwraps the request with
expect). -/
structure DamageOut where
  health : Health
  transitions : List GameState
  fatal : Bool
deriving DecidableEq

/-- One tick of damage_yourself: on a fresh press of the damage key,
apply take_damage with amount r * 10 + 10 (r drawn uniformly from
[0, 1)); when death is reported, request the transition to GameOver,
treating a rejected request (setOk = false) as fatal. -/
def damageYourself (justPressed : Bool) (r : ℚ) (h : Health) (setOk : Bool) : DamageOut :=
  if justPressed then
    let res := h.takeDamage (r * 10 + 10)
    if res.2 then
      { health := res.1, transitions := [GameState.GameOver], fatal := !setOk }
    else
      { health := res.1, transitions := [], fatal := false }
  else
    { health := h, transitions := [], fatal := false }

/-- One tick of update_ui: the health-bar width, in percent, is set to
current / max * 100. -/
def updateUi (current maxHealth : ℚ) : ℚ :=
  current / maxHealth * 100

/-- The six systems registered for the Game state by PlayerPlugin. -/
inductive SystemId where
  | movement
  | cameraFollow
  | aim
  | shoot
  | damage
  | ui
deriving DecidableEq, Fintype

/-- The ordering constraints literally declared in PlayerPlugin::build:
camera_follow after player_movement, player_aim after player_movement,
player_shoot after player_aim; damage_yourself and update_ui carry no
constraint. -/
def declaredBefore : SystemId → SystemId → Bool
  | SystemId.movement, SystemId.cameraFollow => true
  | SystemId.movement, SystemId.aim => true
  | SystemId.aim, SystemId.shoot => true
  | _, _ => false

/-- The execution-order guarantee of the schedule: the transitive
closure of the declared constraints. -/
def schedBefore (a b : SystemId) : Prop :=
  Relation.TransGen (fun x y => declaredBefore x y = true) a b

/-- The transitive closure of declaredBefore, tabulated: the three
declared edges plus movement before shoot. -/
def chainBefore : SystemId → SystemId → Bool
  | SystemId.movement, SystemId.cameraFollow => true
  | SystemId.movement, SystemId.aim => true
  | SystemId.movement, SystemId.shoot => true
  | SystemId.aim, SystemId.shoot => true
  | _, _ => false

/-- Position of each system in the total order the spec claims. -/
def claimedIndex : SystemId → ℕ
  | SystemId.movement => 0
  | SystemId.cameraFollow => 1
  | SystemId.aim => 2
  | SystemId.shoot => 3
  | SystemId.damage => 4
  | SystemId.ui => 5

/-- 2D cross product (perpendicular dot product), determining whether
two directions are parallel. -/
def cross (u v : ℝ × ℝ) : ℝ :=
  u.1 * v.2 - u.2 * v.1

/-- 2D dot product. -/
def dot (u v : ℝ × ℝ) : ℝ :=
  u.1 * v.1 + u.2 * v.2

/-- Two vectors point along the same angle: parallel with positive
alignment.  For nonzero vectors this is exactly equality of their polar
angles, hence of the rotation and ray direction computed from them. -/
def SameDir (u v : ℝ × ℝ) : Prop :=
  cross u v = 0 ∧ 0 < dot u v

/-- Pointer position lies inside the window. -/
def InWindow (c win : ℝ × ℝ) : Prop :=
  0 ≤ c.1 ∧ c.1 ≤ win.1 ∧ 0 ≤ c.2 ∧ c.2 ≤ win.2

/-- Ticking a timer never changes its duration. -/
theorem Timer.tick_duration (t : Timer) (dt : ℚ) : (t.tick dt).duration = t.duration := by
  unfold Timer.tick
  split <;> rfl

/-- With no duplicate ids, filtering a list for the hit id keeps exactly
the one occurrence. -/
theorem filter_hit_eq_singleton (a : ℕ) (l : List ℕ) (hd : l.Nodup) (hm : a ∈ l) :
    l.filter (fun x => a == x) = [a] := by
  induction l with
  | nil => cases hm
  | cons b l ih =>
    rw [List.nodup_cons] at hd
    rcases List.mem_cons.mp hm with hab | hm2
    · subst hab
      rw [List.filter_cons_of_pos (by simp)]
      have hnil : l.filter (fun x => a == x) = [] := by
        rw [List.filter_eq_nil_iff]
        intro x hx
        simp only [beq_iff_eq]
        intro he
        exact hd.1 (he ▸ hx)
      rw [hnil]
    · have hne : a ≠ b := fun he => hd.1 (he ▸ hm2)
      rw [List.filter_cons_of_neg (by simp [hne])]
      exact ih hd.2 hm2

/-- No id outside the list survives the filter. -/
theorem filter_hit_eq_nil (a : ℕ) (l : List ℕ) (hm : a ∉ l) :
    l.filter (fun x => a == x) = [] := by
  rw [List.filter_eq_nil_iff]
  intro x hx
  simp only [beq_iff_eq]
  intro he
  exact hm (he ▸ hx)

/-- C9: every tick, update_ui sets the health-bar width to
current / max * 100 percent — an affine, monotone function of current
health that is 100 at current = max and 0 at current = 0. -/
theorem updateUi_linear_monotone (m c c1 c2 : ℚ) (hm : 0 < m) (h12 : c1 ≤ c2) :
    updateUi c m = 100 / m * c ∧
    updateUi c1 m ≤ updateUi c2 m ∧
    updateUi m m = 100 ∧
    updateUi 0 m = 0 := by
  refine ⟨?_, ?_, ?_, ?_⟩
  · unfold updateUi
    field_simp
    ring
  · unfold updateUi
    gcongr
  · unfold updateUi
    rw [div_self hm.ne']
    norm_num
  · unfold updateUi
    simp

/-- Witness for C9 at max = 100. -/
theorem updateUi_linear_monotone_witness :
    updateUi 37 100 = 100 / 100 * 37 ∧
    updateUi 25 100 ≤ updateUi 80 100 ∧
    updateUi 100 100 = 100 ∧
    updateUi 0 100 = 0 :=
  updateUi_linear_monotone 100 37 25 80 (by norm_num) (by norm_num)

/-- C7: on a fresh damage press, the applied amount r * 10 + 10 lies in
[10, 20) for r in [0, 1); the health becomes the take_damage result;
when take_damage reports death exactly one transition to GameOver is
requested, a rejected request being fatal; and without death no
transition is requested. -/
theorem damageYourself_spec (r : ℚ) (h : Health) (setOk : Bool)
    (hr0 : 0 ≤ r) (hr1 : r < 1) :
    (10 ≤ r * 10 + 10 ∧ r * 10 + 10 < 20) ∧
    (damageYourself true r h setOk).health = (h.takeDamage (r * 10 + 10)).1 ∧
    ((h.takeDamage (r * 10 + 10)).2 = true →
      (damageYourself true r h setOk).transitions = [GameState.GameOver] ∧
      ((damageYourself true r h setOk).fatal = true ↔ setOk = false)) ∧
    ((h.takeDamage (r * 10 + 10)).2 = false →
      (damageYourself true r h setOk).transitions = [] ∧
      (damageYourself true r h setOk).fatal = false) := by
  refine ⟨⟨by nlinarith, by nlinarith⟩, ?_, ?_, ?_⟩
  · by_cases hd : (h.takeDamage (r * 10 + 10)).2 <;> simp [damageYourself, hd]
  · intro hd
    constructor
    · simp [damageYourself, hd]
    · cases setOk <;> simp [damageYourself, hd]
  · intro hd
    constructor <;> simp [damageYourself, hd]

/-- Witness for C7: the spec scenario current = 5, max = 100, amount 10
(r = 0) — health reaches 0, death, one transition to game-over. -/
theorem damageYourself_spec_witness :
    (damageYourself true 0 ⟨5, 100⟩ true).health = ⟨0, 100⟩ ∧
    (damageYourself true 0 ⟨5, 100⟩ true).transitions = [GameState.GameOver] ∧
    (damageYourself true 0 ⟨5, 100⟩ true).fatal = false := by
  have h := damageYourself_spec 0 ⟨5, 100⟩ true (by norm_num) (by norm_num)
  have hdeath : (Health.takeDamage ⟨5, 100⟩ (0 * 10 + 10)).2 = true := by
    simp only [Health.takeDamage]
    norm_num [max_def, min_def]
  refine ⟨?_, (h.2.2.1 hdeath).1, ?_⟩
  · rw [h.2.1]
    simp only [Health.takeDamage]
    norm_num [max_def, min_def]
  · simpa using (h.2.2.1 hdeath).2

/-- C4: while the cooldown is still running during this tick, a fire
press has no observable effect: no sound request, no ray query, no
despawn, and the cooldown only accumulates the frame delta. -/
theorem playerShoot_blocked (pid : ℕ) (pos : ℝ × ℝ) (t : Timer) (dt : ℚ)
    (cursor : Option (ℝ × ℝ)) (sf : ℝ) (win : ℝ × ℝ) (jp : Bool)
    (enemies : List ℕ) (castRay : Ray → Option (ℕ × ℝ))
    (hdt : 0 ≤ dt) (hlt : t.elapsed + dt < t.duration) :
    playerShoot pid pos t dt cursor sf win jp enemies castRay =
      { despawned := [], sounds := [],
        shooting := { duration := t.duration, elapsed := t.elapsed + dt }, rays := [] } := by
  have h1 : ¬ t.duration ≤ t.elapsed := by linarith
  have h2 : t.tick dt = { duration := t.duration, elapsed := t.elapsed + dt } := by
    unfold Timer.tick
    rw [if_neg h1, min_eq_left (le_of_lt hlt)]
  have h3 : (t.tick dt).finished = false := by
    rw [h2]
    unfold Timer.finished
    simp only [decide_eq_false_iff_not]
    intro hle
    exact absurd hle (by simpa using hlt)
  simp only [playerShoot]
  rw [if_pos h3, h2]

/-- Witness for C4: duration 1/2, elapsed 0, dt 1/4 — the press is
dropped and only the tick increment lands. -/
theorem playerShoot_blocked_witness :
    playerShoot 0 (0, 0) ⟨1/2, 0⟩ (1/4) (some (1, 1)) 1 (2, 2) true [7]
        (fun _ => some (7, 100)) =
      { despawned := [], sounds := [], shooting := ⟨1/2, 1/4⟩, rays := [] } := by
  have h := playerShoot_blocked 0 (0, 0) ⟨1/2, 0⟩ (1/4) (some (1, 1)) 1 (2, 2) true [7]
      (fun _ => some (7, 100)) (by norm_num) (by norm_num)
  have h2 : (0 : ℚ) + 1/4 = 1/4 := by norm_num
  rw [h, h2]

/-- C3: with the cooldown ready, the pointer present, a fresh fire press
and the cast ray hitting an entity of the targetable set, exactly that
entity is despawned (recursively), exactly one sound request is issued
at volume 0.15, the cooldown elapsed resets to 0, and exactly the one
ray query is performed. -/
theorem playerShoot_hits_target (pid : ℕ) (pos : ℝ × ℝ) (t : Timer) (dt : ℚ)
    (c : ℝ × ℝ) (sf : ℝ) (win : ℝ × ℝ) (enemies : List ℕ)
    (castRay : Ray → Option (ℕ × ℝ)) (hit : ℕ) (toi : ℝ)
    (hready : (t.tick dt).finished = true)
    (hcast : castRay (shootRay pid pos sf c win) = some (hit, toi))
    (hmem : hit ∈ enemies) (hnodup : enemies.Nodup) :
    playerShoot pid pos t dt (some c) sf win true enemies castRay =
      { despawned := [hit], sounds := [3/20],
        shooting := { duration := t.duration, elapsed := 0 },
        rays := [shootRay pid pos sf c win] } := by
  simp only [playerShoot]
  rw [if_neg (by simp [hready]), hcast]
  simp [Timer.reset, Timer.tick_duration, filter_hit_eq_singleton hit enemies hnodup hmem]

/-- Witness for C3: a ready cooldown, enemy 7 on the ray, a press —
enemy 7 is despawned, one sound at 0.15, cooldown back to 0. -/
theorem playerShoot_hits_target_witness :
    playerShoot 0 (0, 0) ⟨1/2, 1/2⟩ 0 (some (1, 1)) 1 (2, 2) true [7]
        (fun _ => some (7, 100)) =
      { despawned := [7], sounds := [3/20], shooting := ⟨1/2, 0⟩,
        rays := [shootRay 0 (0, 0) 1 (1, 1) (2, 2)] } :=
  playerShoot_hits_target 0 (0, 0) ⟨1/2, 1/2⟩ 0 (1, 1) 1 (2, 2) [7]
    (fun _ => some (7, 100)) 7 100 (by norm_num [Timer.tick, Timer.finished]) rfl
    (by simp) (by simp)

/-- C5: with the cooldown ready and a fresh press, a ray hit on an
entity outside the targetable set despawns nothing, while the sound
still plays once at volume 0.15 and the cooldown still resets to 0. -/
theorem playerShoot_nontarget (pid : ℕ) (pos : ℝ × ℝ) (t : Timer) (dt : ℚ)
    (c : ℝ × ℝ) (sf : ℝ) (win : ℝ × ℝ) (enemies : List ℕ)
    (castRay : Ray → Option (ℕ × ℝ)) (hit : ℕ) (toi : ℝ)
    (hready : (t.tick dt).finished = true)
    (hcast : castRay (shootRay pid pos sf c win) = some (hit, toi))
    (hnotmem : hit ∉ enemies) :
    playerShoot pid pos t dt (some c) sf win true enemies castRay =
      { despawned := [], sounds := [3/20],
        shooting := { duration := t.duration, elapsed := 0 },
        rays := [shootRay pid pos sf c win] } := by
  simp only [playerShoot]
  rw [if_neg (by simp [hready]), hcast]
  simp [Timer.reset, Timer.tick_duration, filter_hit_eq_nil hit enemies hnotmem]

/-- Witness for C5: the ray hits entity 9, the targetable set is {7} —
nothing despawned, one sound, cooldown reset. -/
theorem playerShoot_nontarget_witness :
    playerShoot 0 (0, 0) ⟨1/2, 1/2⟩ 0 (some (1, 1)) 1 (2, 2) true [7]
        (fun _ => some (9, 100)) =
      { despawned := [], sounds := [3/20], shooting := ⟨1/2, 0⟩,
        rays := [shootRay 0 (0, 0) 1 (1, 1) (2, 2)] } :=
  playerShoot_nontarget 0 (0, 0) ⟨1/2, 1/2⟩ 0 (1, 1) 1 (2, 2) [7]
    (fun _ => some (9, 100)) 9 100 (by norm_num [Timer.tick, Timer.finished]) rfl
    (by simp)

/-- Every declared edge lies in the tabulated chain. -/
theorem declared_subset_chain : ∀ x y : SystemId,
    declaredBefore x y = true → chainBefore x y = true := by decide

/-- The tabulated chain absorbs declared edges on the right. -/
theorem chain_absorbs_edge : ∀ x y z : SystemId,
    chainBefore x y = true → declaredBefore y z = true → chainBefore x z = true := by decide

/-- The schedule ordering guarantee is exactly the tabulated chain. -/
theorem schedBefore_iff_chain (a b : SystemId) :
    schedBefore a b ↔ chainBefore a b = true := by
  constructor
  · intro h
    induction h with
    | single h => exact declared_subset_chain _ _ h
    | tail _ hbc ih => exact chain_absorbs_edge _ _ _ ih hbc
  · intro h
    revert h
    cases a <;> cases b <;> intro h <;>
      first
        | exact Relation.TransGen.single rfl
        | exact Relation.TransGen.tail
            (Relation.TransGen.single
              (show declaredBefore SystemId.movement SystemId.aim = true from rfl)) rfl
        | exact absurd h (by decide)

/-- C6 counterexample: the claimed total order places the weapon system
before damage-input handling, but the schedule constraints declared in
PlayerPlugin::build do not order the weapon system before it. -/
theorem schedule_claim_counterexample :
    claimedIndex SystemId.shoot < claimedIndex SystemId.damage ∧
    ¬ schedBefore SystemId.shoot SystemId.damage := by
  refine ⟨by decide, fun h => ?_⟩
  exact absurd ((schedBefore_iff_chain _ _).mp h) (by decide)

/-- Exactly one directional key held. -/
def SingleKey (k : Keys) : Prop :=
  k = ⟨true, false, false, false⟩ ∨ k = ⟨false, true, false, false⟩ ∨
  k = ⟨false, false, true, false⟩ ∨ k = ⟨false, false, false, true⟩

/-- With a single held key the direction is already a unit vector, so
the movement tick is the collision fold over the tentative position
displaced by the key direction times speed, tile unit and delta. -/
theorem playerMovement_single (k : Keys) (hk : SingleKey k) (speed dt : ℝ) (pos : ℝ × ℝ)
    (cs : Option (ℝ × ℝ)) (sc : ℝ × ℝ) (walls : List (ℝ × ℝ)) :
    playerMovement k speed dt pos cs sc walls =
      walls.foldl (fun t w => resolveWall (playerSize cs sc) t w)
        (pos.1 + (keyDirection k).1 * speed * TILE_SIZE * dt,
         pos.2 + (keyDirection k).2 * speed * TILE_SIZE * dt) := by
  rcases hk with rfl | rfl | rfl | rfl <;>
    norm_num [playerMovement, keyDirection, len, normalize, Real.sqrt_one]

/-- C2: with no obstacles, a single held direction moves the position by
exactly unit_direction * speed * tile_unit * dt in one tick, and a zero
net intent leaves the position unchanged. -/
theorem playerMovement_no_obstacles (k : Keys) (speed dt : ℝ) (pos : ℝ × ℝ)
    (cs : Option (ℝ × ℝ)) (sc : ℝ × ℝ) (_hdt : 0 ≤ dt) :
    (SingleKey k →
      playerMovement k speed dt pos cs sc [] =
        (pos.1 + (keyDirection k).1 * speed * TILE_SIZE * dt,
         pos.2 + (keyDirection k).2 * speed * TILE_SIZE * dt)) ∧
    (keyDirection k = (0, 0) → playerMovement k speed dt pos cs sc [] = pos) := by
  constructor
  · intro hk
    rw [playerMovement_single k hk]
    rfl
  · intro h
    simp only [playerMovement, h]
    norm_num [len, Real.sqrt_zero]

/-- Witness for C2: the spec scenario — position (0,0), only the right
key, speed 10, tile unit 32, dt 0.016, no obstacles, next position
(5.12, 0). -/
theorem playerMovement_no_obstacles_witness :
    playerMovement ⟨false, false, true, false⟩ 10 0.016 (0, 0) (some (32, 32)) (1, 1) [] =
      ((5.12 : ℝ), 0) := by
  have h := (playerMovement_no_obstacles ⟨false, false, true, false⟩ 10 0.016 (0, 0)
      (some (32, 32)) (1, 1) (by norm_num)).1 (Or.inr (Or.inr (Or.inl rfl)))
  rw [h]
  norm_num [keyDirection, TILE_SIZE]

/-- C1 amended: within the movement tick, each collision-loop iteration
pushes out of the obstacle it is testing: whenever the obstacle overlap
with the position being tested in that iteration is classified as a
side contact, the corrected axis snaps to the obstacle center offset by
one tile unit on the penetrated side, and — provided the player
footprint does not exceed one tile unit per axis — the resulting
footprint no longer overlaps that obstacle on the corrected axis.
Because later obstacles re-correct the same evolving position without
re-validating earlier ones, this guarantee holds per iteration (and for
the final position with respect to the last corrected obstacle), not
for the final position against every side-contact obstacle of the
tick. -/
theorem resolveWall_separates (s t w : ℝ × ℝ) (cl : Collision)
    (hsx : s.1 ≤ TILE_SIZE) (hsy : s.2 ≤ TILE_SIZE)
    (hc : collide t s w (TILE_SIZE, TILE_SIZE) = some cl)
    (hcl : cl ≠ Collision.Inside) :
    resolveWall s t w = snapTarget t w cl ∧
    ¬ correctedOverlap cl (resolveWall s t w) s w := by
  have hr : resolveWall s t w = snapTarget t w cl := by
    unfold resolveWall
    rw [hc]
  refine ⟨hr, ?_⟩
  rw [hr]
  simp only [TILE_SIZE] at hsx hsy
  cases cl with
  | Inside => exact absurd rfl hcl
  | Top =>
    simp only [snapTarget, correctedOverlap, overlapY, TILE_SIZE]
    rintro ⟨h1, -⟩
    linarith
  | Bottom =>
    simp only [snapTarget, correctedOverlap, overlapY, TILE_SIZE]
    rintro ⟨-, h2⟩
    linarith
  | Left =>
    simp only [snapTarget, correctedOverlap, overlapX, TILE_SIZE]
    rintro ⟨-, h2⟩
    linarith
  | Right =>
    simp only [snapTarget, correctedOverlap, overlapX, TILE_SIZE]
    rintro ⟨h1, -⟩
    linarith

/-- Witness for C1 (amended): a 32-by-32 footprint at tentative (0,10)
overlapping the tile at the origin is classified Top, snapped to
(0,32), and no longer overlaps that tile on the y axis. -/
theorem resolveWall_separates_witness :
    collide ((0 : ℝ), (10 : ℝ)) (32, 32) (0, 0) (TILE_SIZE, TILE_SIZE) = some Collision.Top ∧
    resolveWall (32, 32) ((0 : ℝ), (10 : ℝ)) (0, 0) =
      snapTarget ((0 : ℝ), (10 : ℝ)) (0, 0) Collision.Top ∧
    ¬ correctedOverlap Collision.Top (resolveWall (32, 32) ((0 : ℝ), (10 : ℝ)) (0, 0))
        (32, 32) (0, 0) := by
  have hc : collide ((0 : ℝ), (10 : ℝ)) (32, 32) (0, 0) (TILE_SIZE, TILE_SIZE) =
      some Collision.Top := by
    norm_num [collide, xCollision, yCollision, pickCollision, TILE_SIZE]
  have h := resolveWall_separates (32, 32) ((0 : ℝ), (10 : ℝ)) (0, 0) Collision.Top
    (by norm_num [TILE_SIZE]) (by norm_num [TILE_SIZE]) hc (by simp)
  exact ⟨hc, h.1, h.2⟩

/-- C1 counterexample: moving up from the origin with walls at (0,0) and
(0,48), the tentative position of the tick is (0,10) and the wall at
the origin is classified Top against it; yet the final position of the
tick is (0,16) — produced by the later wall re-correcting the snapped
position — which is not the Top snap (0,32) and still overlaps the
origin wall on the corrected (y) axis. -/
theorem collision_claim_counterexample :
    playerMovement ⟨true, false, false, false⟩ 10 (1/32) (0, 0) (some (32, 32)) (1, 1) [] =
      ((0 : ℝ), (10 : ℝ)) ∧
    ¬ ∀ w ∈ [((0 : ℝ), (0 : ℝ)), ((0 : ℝ), (48 : ℝ))], ∀ cl : Collision,
        collide ((0 : ℝ), (10 : ℝ)) (32, 32) w (TILE_SIZE, TILE_SIZE) = some cl →
        cl ≠ Collision.Inside →
        playerMovement ⟨true, false, false, false⟩ 10 (1/32) (0, 0) (some (32, 32)) (1, 1)
            [((0 : ℝ), (0 : ℝ)), ((0 : ℝ), (48 : ℝ))] = snapTarget ((0 : ℝ), (10 : ℝ)) w cl ∧
        ¬ correctedOverlap cl
            (playerMovement ⟨true, false, false, false⟩ 10 (1/32) (0, 0) (some (32, 32)) (1, 1)
              [((0 : ℝ), (0 : ℝ)), ((0 : ℝ), (48 : ℝ))]) (32, 32) w := by
  have hps : playerSize (some (32, 32)) ((1 : ℝ), (1 : ℝ)) = (32, 32) := by
    norm_num [playerSize]
  have hcA : collide ((0 : ℝ), (10 : ℝ)) (32, 32) ((0 : ℝ), (0 : ℝ)) (TILE_SIZE, TILE_SIZE) =
      some Collision.Top := by
    norm_num [collide, xCollision, yCollision, pickCollision, TILE_SIZE]
  have hcB : collide ((0 : ℝ), (32 : ℝ)) (32, 32) ((0 : ℝ), (48 : ℝ)) (TILE_SIZE, TILE_SIZE) =
      some Collision.Bottom := by
    norm_num [collide, xCollision, yCollision, pickCollision, TILE_SIZE]
  have e1 : resolveWall (32, 32) ((0 : ℝ), (10 : ℝ)) ((0 : ℝ), (0 : ℝ)) = ((0 : ℝ), (32 : ℝ)) := by
    unfold resolveWall
    rw [hcA]
    norm_num [snapTarget, TILE_SIZE]
  have e2 : resolveWall (32, 32) ((0 : ℝ), (32 : ℝ)) ((0 : ℝ), (48 : ℝ)) =
      ((0 : ℝ), (16 : ℝ)) := by
    unfold resolveWall
    rw [hcB]
    norm_num [snapTarget, TILE_SIZE]
  have htent : ((0 : ℝ) + (keyDirection ⟨true, false, false, false⟩).1 * 10 * TILE_SIZE * (1/32),
      (0 : ℝ) + (keyDirection ⟨true, false, false, false⟩).2 * 10 * TILE_SIZE * (1/32)) =
      ((0 : ℝ), (10 : ℝ)) := by
    norm_num [keyDirection, TILE_SIZE]
  have hmove : playerMovement ⟨true, false, false, false⟩ 10 (1/32) (0, 0) (some (32, 32)) (1, 1)
      [((0 : ℝ), (0 : ℝ)), ((0 : ℝ), (48 : ℝ))] = ((0 : ℝ), (16 : ℝ)) := by
    rw [playerMovement_single ⟨true, false, false, false⟩ (Or.inl rfl) 10 (1/32) (0, 0)
      (some (32, 32)) (1, 1) [((0 : ℝ), (0 : ℝ)), ((0 : ℝ), (48 : ℝ))], htent]
    simp only [List.foldl, hps, e1, e2]
  constructor
  · rw [playerMovement_single ⟨true, false, false, false⟩ (Or.inl rfl) 10 (1/32) (0, 0)
      (some (32, 32)) (1, 1) [], htent]
    rfl
  · intro hclaim
    have h := hclaim ((0 : ℝ), (0 : ℝ)) (by simp) Collision.Top hcA (by simp)
    rw [hmove] at h
    have hne : ((0 : ℝ), (16 : ℝ)) ≠ snapTarget ((0 : ℝ), (10 : ℝ)) ((0 : ℝ), (0 : ℝ))
        Collision.Top := by
      norm_num [snapTarget, TILE_SIZE, Prod.ext_iff]
    exact hne h.1

/-- C6 amended: the code fixes only a partial order within the tick —
movement before camera-follow, movement before aim, aim before weapon
and hence movement before weapon; damage-input handling and UI sync are
left unordered relative to every other system. -/
theorem schedule_partial_order (a b : SystemId) :
    schedBefore a b ↔
      ((a = SystemId.movement ∧ b = SystemId.cameraFollow) ∨
       (a = SystemId.movement ∧ b = SystemId.aim) ∨
       (a = SystemId.movement ∧ b = SystemId.shoot) ∨
       (a = SystemId.aim ∧ b = SystemId.shoot)) := by
  rw [schedBefore_iff_chain]
  cases a <;> cases b <;> decide

/-- A vector away from the origin has positive length. -/
theorem len_pos_of_ne (v : ℝ × ℝ) (hv : v ≠ (0, 0)) : 0 < len v := by
  obtain ⟨x, y⟩ := v
  have hv2 : x ≠ 0 ∨ y ≠ 0 := by
    by_contra hcon
    push_neg at hcon
    exact hv (by rw [hcon.1, hcon.2])
  unfold len
  apply Real.sqrt_pos.mpr
  rcases hv2 with hx | hy
  · nlinarith [mul_self_pos.mpr hx, mul_self_nonneg y]
  · nlinarith [mul_self_pos.mpr hy, mul_self_nonneg x]

/-- C8 counterexample: with the pointer at (640, 0) inside a 1280x720
window and display scale factor 2, the ray direction player_shoot
computes from the scaled pointer offset does not point along the offset
player_aim rotates toward — the aim step applies no scale factor, so
the two disagree whenever the scale factor is not 1. -/
theorem aim_shoot_counterexample :
    InWindow (640, 0) (1280, 720) ∧
    ¬ SameDir (aimVec ((640 : ℝ), (0 : ℝ)) (1280, 720))
        (normalize (shootVec ((640 : ℝ), (0 : ℝ)) 2 (1280, 720))) := by
  constructor
  · norm_num [InWindow]
  · rintro ⟨hcross, -⟩
    have hav : aimVec ((640 : ℝ), (0 : ℝ)) (1280, 720) = (0, -360) := by
      norm_num [aimVec]
    have hsv : shootVec ((640 : ℝ), (0 : ℝ)) 2 (1280, 720) = (640, -360) := by
      norm_num [shootVec]
    rw [hav, hsv] at hcross
    have hL : 0 < len ((640 : ℝ), (-360 : ℝ)) :=
      len_pos_of_ne _ (by norm_num [Prod.ext_iff])
    unfold cross normalize at hcross
    have heq : (0 : ℝ) * ((-360) / len ((640 : ℝ), (-360 : ℝ))) -
        (-360) * (640 / len ((640 : ℝ), (-360 : ℝ))) =
        230400 / len ((640 : ℝ), (-360 : ℝ)) := by
      ring
    rw [heq] at hcross
    rcases div_eq_zero_iff.mp hcross with h | h
    · norm_num at h
    · exact absurd h hL.ne'

/-- C8 amended: at display scale factor 1 (pointer not exactly at the
window center), the ray direction player_shoot computes points along
the same angle as the offset player_aim rotates toward, since the two
offsets coincide; under a non-1.0 scale factor they diverge (see the
counterexample). -/
theorem aim_shoot_scale_one (c win : ℝ × ℝ) (_hin : InWindow c win)
    (hne : aimVec c win ≠ (0, 0)) :
    SameDir (aimVec c win) (normalize (shootVec c 1 win)) := by
  have hsv : shootVec c 1 win = aimVec c win := by
    unfold shootVec aimVec
    norm_num
  rw [hsv]
  have hL := len_pos_of_ne _ hne
  have hsum : 0 < (aimVec c win).1 * (aimVec c win).1 + (aimVec c win).2 * (aimVec c win).2 :=
    Real.sqrt_pos.mp hL
  constructor
  · unfold cross normalize
    ring
  · unfold dot normalize
    have heq : (aimVec c win).1 * ((aimVec c win).1 / len (aimVec c win)) +
        (aimVec c win).2 * ((aimVec c win).2 / len (aimVec c win)) =
        ((aimVec c win).1 * (aimVec c win).1 + (aimVec c win).2 * (aimVec c win).2) /
          len (aimVec c win) := by
      ring
    rw [heq]
    exact div_pos hsum hL

/-- Witness for C8 (amended): pointer (640, 0) in a 1280x720 window at
scale factor 1. -/
theorem aim_shoot_scale_one_witness :
    SameDir (aimVec ((640 : ℝ), (0 : ℝ)) (1280, 720))
      (normalize (shootVec ((640 : ℝ), (0 : ℝ)) 1 (1280, 720))) :=
  aim_shoot_scale_one (640, 0) (1280, 720) (by norm_num [InWindow])
    (by norm_num [aimVec, Prod.ext_iff])

/-- C10: with the pointer exactly at the window center (scale factor 1),
the offset from the center is the zero vector, yet neither step no-ops:
player_aim still produces a rotation update computed from the zero
vector, and player_shoot (cooldown ready, fresh press) still performs
its ray query whose direction is normalize of the zero vector — a
degenerate direction of length 0, not a unit vector (NaN in the f32
original); no zero-length guard exists in either step. -/
theorem center_pointer_degenerate (win : ℝ × ℝ) (pid : ℕ) (pos : ℝ × ℝ) (t : Timer) (dt : ℚ)
    (enemies : List ℕ) (castRay : Ray → Option (ℕ × ℝ))
    (hready : (t.tick dt).finished = true) :
    playerAim (some (win.1 / 2, win.2 / 2)) win = some (0, 0) ∧
    shootVec (win.1 / 2, win.2 / 2) 1 win = (0, 0) ∧
    normalize (0, 0) = (0, 0) ∧
    len ((0 : ℝ), (0 : ℝ)) = 0 ∧
    (playerShoot pid pos t dt (some (win.1 / 2, win.2 / 2)) 1 win true enemies castRay).rays =
      [shootRay pid pos 1 (win.1 / 2, win.2 / 2) win] ∧
    (shootRay pid pos 1 (win.1 / 2, win.2 / 2) win).dir = (0, 0) := by
  have hlen : len ((0 : ℝ), (0 : ℝ)) = 0 := by
    norm_num [len, Real.sqrt_zero]
  have hnorm : normalize ((0 : ℝ), (0 : ℝ)) = (0, 0) := by
    norm_num [normalize]
  have hsv : shootVec (win.1 / 2, win.2 / 2) 1 win = (0, 0) := by
    norm_num [shootVec]
  refine ⟨?_, hsv, hnorm, hlen, ?_, ?_⟩
  · norm_num [playerAim, aimVec]
  · simp only [playerShoot]
    rw [if_neg (by simp [hready])]
    cases castRay (shootRay pid pos 1 (win.1 / 2, win.2 / 2) win) <;> simp
  · unfold shootRay
    rw [hsv, hnorm]

/-- Witness for C10: a 1280x720 window, ready cooldown, concrete shoot
inputs. -/
theorem center_pointer_degenerate_witness :
    playerAim (some ((1280 : ℝ) / 2, (720 : ℝ) / 2)) (1280, 720) = some (0, 0) ∧
    shootVec ((1280 : ℝ) / 2, (720 : ℝ) / 2) 1 (1280, 720) = (0, 0) ∧
    normalize (0, 0) = (0, 0) ∧
    len ((0 : ℝ), (0 : ℝ)) = 0 ∧
    (playerShoot 0 (0, 0) ⟨1/2, 1/2⟩ 0 (some ((1280 : ℝ) / 2, (720 : ℝ) / 2)) 1 (1280, 720)
        true [] (fun _ => none)).rays =
      [shootRay 0 (0, 0) 1 ((1280 : ℝ) / 2, (720 : ℝ) / 2) (1280, 720)] ∧
    (shootRay 0 (0, 0) 1 ((1280 : ℝ) / 2, (720 : ℝ) / 2) (1280, 720)).dir = (0, 0) :=
  center_pointer_degenerate (1280, 720) 0 (0, 0) ⟨1/2, 1/2⟩ 0 [] (fun _ => none)
    (by norm_num [Timer.tick, Timer.finished])

end Game
